import Mathlib

/-!
Verification of the image-description ingestion app (`src/app.py`) against its
specification. The Python source is shallowly embedded: the SQLite-backed store
is a pure state (`DBState`), each store operation is a Lean function that also
returns the sequence of observable events (connection open/close, user-visible
notices), the extraction post-processing is embedded over a JSON value type,
and the per-image controller loop is a fold over the uploaded batch.
-/

set_option autoImplicit false

namespace App

/-- JSON values as produced by `SimpleJsonOutputParser` (Python objects after
`json` parsing: `str`, `int`, `bool`, `None`, `list`, `dict`). -/
inductive JVal where
  | jstr (s : String)
  | jnum (n : Int)
  | jbool (b : Bool)
  | jnull
  | jarr (l : List JVal)
  | jobj (l : List (String × JVal))
deriving Repr

mutual

/-- Structural boolean equality on `JVal`. -/
def JVal.beq : JVal → JVal → Bool
  | .jstr a, .jstr b => a == b
  | .jnum a, .jnum b => a == b
  | .jbool a, .jbool b => a == b
  | .jnull, .jnull => true
  | .jarr a, .jarr b => JVal.beqList a b
  | .jobj a, .jobj b => JVal.beqObj a b
  | _, _ => false

/-- Boolean equality on lists of `JVal`. -/
def JVal.beqList : List JVal → List JVal → Bool
  | [], [] => true
  | x :: xs, y :: ys => JVal.beq x y && JVal.beqList xs ys
  | _, _ => false

/-- Boolean equality on association lists of `JVal`. -/
def JVal.beqObj : List (String × JVal) → List (String × JVal) → Bool
  | [], [] => true
  | (k, x) :: xs, (l, y) :: ys => k == l && JVal.beq x y && JVal.beqObj xs ys
  | _, _ => false

end

instance : BEq JVal := ⟨JVal.beq⟩

mutual

/-- Python `repr` of a parsed-JSON value (what `str` does on non-`str` values;
string quoting simplified to bare single quotes). -/
def pyRepr : JVal → String
  | .jstr s => "\x27" ++ s ++ "\x27"
  | .jnum n => toString n
  | .jbool b => if b then "True" else "False"
  | .jnull => "None"
  | .jarr l => "[" ++ pyReprList l ++ "]"
  | .jobj l => "\x7b" ++ pyReprObj l ++ "\x7d"

/-- Comma-separated `repr`s of the elements of a Python list. -/
def pyReprList : List JVal → String
  | [] => ""
  | [x] => pyRepr x
  | x :: xs => pyRepr x ++ ", " ++ pyReprList xs

/-- Comma-separated `repr`s of the entries of a Python dict. -/
def pyReprObj : List (String × JVal) → String
  | [] => ""
  | [(k, x)] => "\x27" ++ k ++ "\x27: " ++ pyRepr x
  | (k, x) :: xs => "\x27" ++ k ++ "\x27: " ++ pyRepr x ++ ", " ++ pyReprObj xs

end

/-- Python `str()` applied to a parsed-JSON value: identity on strings,
`repr` on everything else. This is the `str` in `", ".join(map(str, x))`. -/
def pyStr : JVal → String
  | .jstr s => s
  | v => pyRepr v

/-- Python `dict.get(key, default)` on the parsed extraction response. -/
def dictGet (d : List (String × JVal)) (k : String) (dflt : JVal) : JVal :=
  match d.lookup k with
  | some v => v
  | none => dflt

/-- Embeds `if isinstance(x, list): x = ", ".join(map(str, x))` from
`src/app.py` lines 145-146 and 149-150. -/
def coerceField (v : JVal) : JVal :=
  match v with
  | .jarr l => .jstr (String.intercalate ", " (l.map pyStr))
  | _ => v

/-- `buildings_to_insert` (`src/app.py` lines 144-146). -/
def buildings_to_insert (d : List (String × JVal)) : JVal :=
  coerceField (dictGet d "buildings" (.jstr "No buildings identified"))

/-- `description_to_insert` (`src/app.py` lines 148-150). -/
def description_to_insert (d : List (String × JVal)) : JVal :=
  coerceField (dictGet d "description" (.jstr "No description"))

/-- The `title` argument of the insert call (`src/app.py` line 155): looked up
with a sentinel default and, unlike the other two fields, never coerced. -/
def title_to_insert (d : List (String × JVal)) : JVal :=
  dictGet d "title" (.jstr "No title")

/-- One persisted row of the `image_data` table. `Option String` is a
nullable TEXT column (`none` = SQL NULL); `time_added` is the store clock
value at insertion. -/
structure Row where
  id : Nat
  image_name : String
  title : Option String
  buildings : Option String
  description : Option String
  time_added : Nat
deriving Repr, DecidableEq

/-- Declared column of a SQLite table. -/
structure ColumnSpec where
  colName : String
  declType : String
  notNull : Bool
  unique : Bool
  pkAutoinc : Bool
  dflt : Option String
deriving Repr, DecidableEq

/-- The columns declared by the `CREATE TABLE` DDL in `setup_database`
(`src/app.py` lines 30-41). -/
def image_data_schema : List ColumnSpec :=
  [⟨"id", "INTEGER", false, false, true, none⟩,
   ⟨"image_name", "TEXT", true, true, false, none⟩,
   ⟨"title", "TEXT", true, false, false, none⟩,
   ⟨"buildings", "TEXT", false, false, false, none⟩,
   ⟨"description", "TEXT", false, false, false, none⟩,
   ⟨"time_added", "DATETIME", false, false, false, some "CURRENT_TIMESTAMP"⟩]

/-- State of the SQLite database file. `seq` is the AUTOINCREMENT sequence
counter (largest id ever assigned); `clock` models CURRENT_TIMESTAMP;
`schema` is the declared schema of the `image_data` table when it exists
(every table this app creates has `image_data_schema`). -/
structure DBState where
  tableExists : Bool
  schema : List ColumnSpec
  rows : List Row
  seq : Nat
  clock : Nat
deriving Repr, DecidableEq

/-- Observable events: connection lifecycle plus the Streamlit notices
(`st.warning`, `st.error`, `st.info`), image rendering, the spinner scope and
the outbound model invocation. -/
inductive Ev where
  | connOpen
  | connClose
  | warn (msg : String)
  | errNote (msg : String)
  | infoNote (msg : String)
  | renderImage (name : String)
  | spinner (name : String)
  | llmCall (name : String)
deriving Repr, DecidableEq

/-- `setup_database` (`src/app.py` lines 21-43): open a connection, run
`CREATE TABLE IF NOT EXISTS`, commit, close. `fault` is true when the storage
engine raises on the execute; the connection is then never closed and the
exception propagates (there is no try/finally in this function). -/
def setup_database (st : DBState) (fault : Bool) :
    Except String DBState × List Ev :=
  if fault then
    (.error "sqlite3.OperationalError", [.connOpen])
  else if st.tableExists then
    (.ok st, [.connOpen, .connClose])
  else
    let st2 : DBState :=
      { st with
        tableExists := true
        schema := image_data_schema
        rows := []
        seq := 0 }
    (.ok st2, [.connOpen, .connClose])

/-- `image_exists_in_db` (`src/app.py` lines 68-75): open a connection,
`SELECT COUNT(*) ... WHERE image_name = ?`, close, return `count > 0`.
The execute raises when the engine faults or the table is missing; the
connection is then never closed (no try/finally here either). -/
def image_exists_in_db (st : DBState) (image_name : String) (fault : Bool) :
    Except String Bool × List Ev :=
  if fault || !st.tableExists then
    (.error "sqlite3.OperationalError", [.connOpen])
  else
    (.ok (st.rows.any (fun r => r.image_name == image_name)),
     [.connOpen, .connClose])

/-- A value of this Python type can be bound as a SQL parameter; lists and
dicts raise `sqlite3.InterfaceError` at binding time. -/
def bindable : JVal → Bool
  | .jarr _ => false
  | .jobj _ => false
  | _ => true

/-- Value stored in a TEXT-affinity column for a bound parameter (`none` is
SQL NULL; numbers and booleans are converted to text by TEXT affinity). -/
def toStored : JVal → Option String
  | .jstr s => some s
  | .jnum n => some (toString n)
  | .jbool b => some (if b then "1" else "0")
  | .jnull => none
  | .jarr _ => none
  | .jobj _ => none

/-- Result of one `insert_image_data` call: the Python return value, the
database state after the call, and the trace of events. The function always
returns (never raises): every exception is caught and the connection is
closed in a `finally`. -/
structure InsertOut where
  inserted : Bool
  st : DBState
  trace : List Ev
deriving Repr, DecidableEq

/-- `insert_image_data` (`src/app.py` lines 45-66). Binding a list/dict
parameter raises `InterfaceError`, caught by the generic `except Exception`
branch (error notice, return `False`). A faulting engine or a missing table
likewise lands in the generic branch. A duplicate `image_name` (UNIQUE) or a
NULL `title` (NOT NULL) raises `IntegrityError`, caught by the first branch
(warning notice naming the image, return `False`). Otherwise the row is
inserted with the next AUTOINCREMENT id and the current timestamp. -/
def insert_image_data (st : DBState) (image_name : String)
    (title buildings description : JVal) (fault : Bool) : InsertOut :=
  if !(bindable title && bindable buildings && bindable description) then
    { inserted := false, st := st,
      trace := [.connOpen,
        .errNote ("Fehler beim Einfügen von \x27" ++ image_name ++
          "\x27 in die Datenbank: InterfaceError"),
        .connClose] }
  else if fault || !st.tableExists then
    { inserted := false, st := st,
      trace := [.connOpen,
        .errNote ("Fehler beim Einfügen von \x27" ++ image_name ++
          "\x27 in die Datenbank: OperationalError"),
        .connClose] }
  else if st.rows.any (fun r => r.image_name == image_name)
      || title == JVal.jnull then
    { inserted := false, st := st,
      trace := [.connOpen,
        .warn ("Bild \x27" ++ image_name ++
          "\x27 existiert bereits in der Datenbank und wird nicht erneut hinzugefügt."),
        .connClose] }
  else
    let row : Row :=
      { id := st.seq + 1, image_name := image_name,
        title := toStored title, buildings := toStored buildings,
        description := toStored description, time_added := st.clock }
    let st2 : DBState :=
      { tableExists := st.tableExists, schema := st.schema,
        rows := st.rows ++ [row], seq := st.seq + 1, clock := st.clock + 1 }
    { inserted := true, st := st2, trace := [.connOpen, .connClose] }

/-- The standard base64 alphabet. -/
def base64Chars : List Char :=
  "ABCDEFGHIJKLMNOPQRSTUVWXYZabcdefghijklmnopqrstuvwxyz0123456789+/".toList

/-- The base64 digit for a 6-bit group. -/
def b64digit (n : Nat) : Char :=
  base64Chars.getD n 'A'

/-- Base64 encoding of a byte sequence, 3 bytes to 4 digits with `=`
padding. -/
def b64encode : List Nat → String
  | [] => ""
  | [a] =>
    String.mk [b64digit (a / 4), b64digit (a % 4 * 16), '=', '=']
  | [a, b] =>
    String.mk [b64digit (a / 4), b64digit (a % 4 * 16 + b / 16),
      b64digit (b % 16 * 4), '=']
  | a :: b :: c :: rest =>
    String.mk [b64digit (a / 4), b64digit (a % 4 * 16 + b / 16),
      b64digit (b % 16 * 4 + c / 64), b64digit (c % 64)] ++ b64encode rest

/-- `encode_image_from_bytes` (`src/app.py` lines 87-88):
`base64.b64encode(image_bytes).decode("utf-8")`. The decode step is the
identity on the ASCII base64 output. -/
def encode_image_from_bytes (image_bytes : List Nat) : String :=
  b64encode image_bytes

/-- The system message of the prompt (`src/app.py` lines 119-124). The four
adjacent Python string literals concatenate without separators. -/
def systemInstruction : String :=
  "You are an expert at analyzing images." ++
  "Extract the title, buildings, and a description from the image." ++
  "Respond with a JSON object with the following keys: title, buildings, description." ++
  "For each key (title, buildings, description) you only give a single short line of text. You never use nested JSON objects."

/-- The text part of the human turn (`src/app.py` line 128). -/
def humanPromptText : String := "Describe the image."

/-- The outbound request to the extraction service: system instruction plus
one human turn holding a text part and an image-url part. -/
structure LLMRequest where
  systemMsg : String
  humanText : String
  humanImageUrl : String
deriving Repr, DecidableEq

/-- The request built for one image (`src/app.py` lines 113-136): the image
bytes are base64-encoded and embedded in a data URL whose MIME tag is the
literal `image/jpeg` from the f-string on line 131. -/
def buildRequest (image_bytes : List Nat) : LLMRequest :=
  { systemMsg := systemInstruction,
    humanText := humanPromptText,
    humanImageUrl :=
      "data:image/jpeg;base64," ++ encode_image_from_bytes image_bytes }

/-- The MIME tag of the data URL in a request: the text between `data:` and
the first `;`. -/
def requestMimeTag (r : LLMRequest) : String :=
  String.mk (((r.humanImageUrl.toList).drop 5).takeWhile (fun c => c ≠ ';'))

/-- Modelled from the spec: §6 requires the image to be "tagged with its MIME
type". The spec does not give a derivation, so the MIME type of an image is
read off its content signature (PNG and JPEG magic numbers), the standard
meaning of an image file's MIME type. Used only to compare the spec's wording
with `buildRequest`. -/
def specMimeOfBytes (bs : List Nat) : String :=
  if bs.take 4 = [137, 80, 78, 71] then "image/png"
  else if bs.take 2 = [255, 216] then "image/jpeg"
  else "application/octet-stream"

/-- One uploaded file: display name and raw bytes. -/
structure ImageFile where
  name : String
  bytes : List Nat
deriving Repr, DecidableEq

/-- Outcome of the controller on one image or on a batch: resulting database
state, event trace, and the exception (if any) that escaped the loop body.
Inside the per-image `try`, everything is caught; only a failure of the
dedup check itself (which sits outside the `try`) can escape. -/
structure BatchOut where
  st : DBState
  trace : List Ev
  exn : Option String
deriving Repr, DecidableEq

/-- The per-image loop body (`src/app.py` lines 96-164). `extract` is the
external model chain (`chain.invoke`), returning the parsed JSON object or
raising; `storeFault` says whether the storage engine faults during this
image's insert. The image is rendered first; then the dedup check; on a hit,
an info notice and `continue`. Otherwise the spinner scope opens, the model
is invoked, the response post-processed and inserted; any exception in that
scope is caught and reported as an error notice naming the image. -/
def processOne (extract : List Nat → Except String (List (String × JVal)))
    (storeFault : String → Bool) (st : DBState) (img : ImageFile) : BatchOut :=
  let evs0 := [Ev.renderImage img.name]
  match image_exists_in_db st img.name false with
  | (.error e, t) =>
    { st := st, trace := evs0 ++ t, exn := some e }
  | (.ok true, t) =>
    { st := st,
      trace := evs0 ++ t ++
        [.infoNote ("Bild \x27" ++ img.name ++
          "\x27 wurde bereits analysiert und befindet sich in der Datenbank.")],
      exn := none }
  | (.ok false, t) =>
    match extract img.bytes with
    | .error e =>
      { st := st,
        trace := evs0 ++ t ++
          [.spinner img.name, .llmCall img.name,
           .errNote ("Fehler bei der Analyse von \x27" ++ img.name ++
             "\x27: " ++ e)],
        exn := none }
    | .ok data =>
      let out := insert_image_data st img.name (title_to_insert data)
        (buildings_to_insert data) (description_to_insert data)
        (storeFault img.name)
      { st := out.st,
        trace := evs0 ++ t ++ [.spinner img.name, .llmCall img.name] ++
          out.trace,
        exn := none }

/-- The whole upload-batch loop (`src/app.py` lines 93-164): images processed
sequentially in upload order; an exception escaping one body aborts the rest
of the batch. -/
def processBatch (extract : List Nat → Except String (List (String × JVal)))
    (storeFault : String → Bool) (st : DBState) :
    List ImageFile → BatchOut
  | [] => { st := st, trace := [], exn := none }
  | img :: rest =>
    let o := processOne extract storeFault st img
    match o.exn with
    | some _ => o
    | none =>
      let r := processBatch extract storeFault o.st rest
      { st := r.st, trace := o.trace ++ r.trace, exn := r.exn }

/-- True on the events that are an invocation of the extraction model. -/
def isLLMCall : Ev → Bool
  | .llmCall _ => true
  | _ => false

/-- A trace releases every storage connection it acquires. -/
def connBalanced (t : List Ev) : Prop :=
  t.count Ev.connClose = t.count Ev.connOpen

instance (t : List Ev) : Decidable (connBalanced t) := by
  unfold connBalanced; infer_instance

/-- All row ids are at most the AUTOINCREMENT counter and are distinct. -/
def WF (st : DBState) : Prop :=
  (∀ r ∈ st.rows, r.id ≤ st.seq) ∧ (st.rows.map Row.id).Nodup

instance (st : DBState) : Decidable (WF st) := by
  unfold WF
  infer_instance

/-- A freshly initialized empty store, as after `setup_database()` on first
start (`src/app.py` line 78). -/
def initSt : DBState :=
  { tableExists := true, schema := image_data_schema, rows := [],
    seq := 0, clock := 0 }

/-- A store holding exactly one row, for `a.jpg`: the state after one
successful insert into a fresh store. -/
def dbA : DBState :=
  (insert_image_data initSt "a.jpg" (.jstr "t") .jnull .jnull false).st

theorem pyStr_jstr (s : String) : pyStr (.jstr s) = s := rfl

theorem pyStr_map_jstr (l : List String) : (l.map JVal.jstr).map pyStr = l := by
  induction l with
  | nil => rfl
  | cons x xs ih => simp [pyStr, ih]

theorem pyStr_comp_map_jstr (l : List String) :
    List.map (pyStr ∘ JVal.jstr) l = l := by
  rw [← List.map_map]
  exact pyStr_map_jstr l

theorem insert_st_tableExists (st : DBState) (n : String) (t b d : JVal)
    (f : Bool) : (insert_image_data st n t b d f).st.tableExists
      = st.tableExists := by
  unfold insert_image_data
  split_ifs <;> rfl

/-- C1: for every `image_name` already present in the store, a second call to
`insert_image_data` with that name is rejected as a non-fatal duplicate: the
return value is `False`, the state is unchanged (no second row), and — when
the parameters bind, the engine does not fault and the table exists — the
only notice is the warning naming the image. The function is total (every
exception is caught inside it), so nothing propagates past the Controller. -/
theorem C1_duplicate_insert_rejected (st : DBState) (name : String)
    (t b d : JVal) (fault : Bool)
    (hdup : st.rows.any (fun r => r.image_name == name) = true) :
    (insert_image_data st name t b d fault).inserted = false ∧
    (insert_image_data st name t b d fault).st = st ∧
    ((bindable t && bindable b && bindable d) = true → fault = false →
      st.tableExists = true →
      (insert_image_data st name t b d fault).trace =
        [.connOpen,
         .warn ("Bild \x27" ++ name ++
           "\x27 existiert bereits in der Datenbank und wird nicht erneut hinzugefügt."),
         .connClose]) := by
  unfold insert_image_data
  split_ifs with h1 h2 h3
  · refine ⟨rfl, rfl, ?_⟩
    intro hb _ _
    rw [hb] at h1
    simp at h1
  · refine ⟨rfl, rfl, ?_⟩
    intro _ hf ht
    rw [hf, ht] at h2
    simp at h2
  · exact ⟨rfl, rfl, fun _ _ _ => rfl⟩
  · exfalso
    apply h3
    simp [hdup]

/-- Witness for `C1_duplicate_insert_rejected` at a store already holding a
row for `a.jpg`. -/
theorem C1_witness :
    (insert_image_data dbA "a.jpg" (.jstr "t2") (.jstr "b") (.jstr "d")
      false).inserted = false ∧
    (insert_image_data dbA "a.jpg" (.jstr "t2") (.jstr "b") (.jstr "d")
      false).st = dbA ∧
    (insert_image_data dbA "a.jpg" (.jstr "t2") (.jstr "b") (.jstr "d")
      false).trace =
      [.connOpen,
       .warn ("Bild \x27a.jpg\x27 existiert bereits in der Datenbank und wird nicht erneut hinzugefügt."),
       .connClose] := by
  have h := C1_duplicate_insert_rejected dbA "a.jpg" (.jstr "t2") (.jstr "b")
    (.jstr "d") false (by decide)
  exact ⟨h.1, h.2.1, h.2.2 (by decide) rfl (by decide)⟩

/-- C2: every key among `title`, `buildings`, `description` that is absent
from the extraction response is replaced by its sentinel default before
persistence; in particular a response holding only `title = "X"` persists a
row with `title = "X"`, `buildings = "No buildings identified"` and
`description = "No description"`. -/
theorem C2_missing_keys_defaulted (d : List (String × JVal)) :
    (d.lookup "title" = none → title_to_insert d = .jstr "No title") ∧
    (d.lookup "buildings" = none →
      buildings_to_insert d = .jstr "No buildings identified") ∧
    (d.lookup "description" = none →
      description_to_insert d = .jstr "No description") ∧
    (processOne (fun _ => .ok [("title", .jstr "X")]) (fun _ => false) initSt
      ⟨"a.jpg", []⟩).st.rows =
      [{ id := 1, image_name := "a.jpg", title := some "X",
         buildings := some "No buildings identified",
         description := some "No description", time_added := 0 }] := by
  refine ⟨?_, ?_, ?_, by decide⟩
  · intro h
    simp [title_to_insert, dictGet, h]
  · intro h
    simp [buildings_to_insert, dictGet, h, coerceField]
  · intro h
    simp [description_to_insert, dictGet, h, coerceField]

/-- Witness for `C2_missing_keys_defaulted` at the response holding only a
title. -/
theorem C2_witness :
    title_to_insert [("title", JVal.jstr "X")] = .jstr "X" ∧
    buildings_to_insert [("title", JVal.jstr "X")]
      = .jstr "No buildings identified" ∧
    description_to_insert [("title", JVal.jstr "X")]
      = .jstr "No description" := by
  have h := C2_missing_keys_defaulted [("title", JVal.jstr "X")]
  exact ⟨rfl, h.2.1 rfl, h.2.2.1 rfl⟩

/-- C3: when the extraction response gives `buildings` or `description` as a
list, the persisted value is the list flattened by joining the Python `str`
of its elements with `", "` — for a list of strings, exactly the strings
joined by `", "`, so `["A","B"]` becomes `"A, B"`; a string value is passed
through verbatim. -/
theorem C3_list_flattening (d : List (String × JVal)) (vs : List JVal)
    (l : List String) (s : String) :
    (d.lookup "buildings" = some (.jarr vs) →
      buildings_to_insert d = .jstr (String.intercalate ", " (vs.map pyStr))) ∧
    (d.lookup "description" = some (.jarr vs) →
      description_to_insert d
        = .jstr (String.intercalate ", " (vs.map pyStr))) ∧
    (d.lookup "buildings" = some (.jarr (l.map .jstr)) →
      buildings_to_insert d = .jstr (String.intercalate ", " l)) ∧
    (d.lookup "description" = some (.jarr (l.map .jstr)) →
      description_to_insert d = .jstr (String.intercalate ", " l)) ∧
    (d.lookup "buildings" = some (.jstr s) → buildings_to_insert d = .jstr s) ∧
    (d.lookup "description" = some (.jstr s) →
      description_to_insert d = .jstr s) ∧
    buildings_to_insert [("buildings", .jarr [.jstr "A", .jstr "B"])]
      = .jstr "A, B" := by
  refine ⟨?_, ?_, ?_, ?_, ?_, ?_, rfl⟩ <;> intro h <;>
    simp [buildings_to_insert, description_to_insert, dictGet, h,
      coerceField, pyStr_map_jstr, pyStr_comp_map_jstr]

/-- Witness for `C3_list_flattening` at the response
`buildings = ["A","B"]`, `description = "plain"`. -/
theorem C3_witness :
    buildings_to_insert
      [("buildings", JVal.jarr [.jstr "A", .jstr "B"]),
       ("description", JVal.jstr "plain")] = .jstr "A, B" ∧
    description_to_insert
      [("buildings", JVal.jarr [.jstr "A", .jstr "B"]),
       ("description", JVal.jstr "plain")] = .jstr "plain" := by
  have h := C3_list_flattening
    [("buildings", JVal.jarr [.jstr "A", .jstr "B"]),
     ("description", JVal.jstr "plain")]
    [JVal.jstr "A", JVal.jstr "B"] ["A", "B"] "plain"
  exact ⟨h.2.2.1 rfl, h.2.2.2.2.2.1 rfl⟩

/-- C4: when the dedup check hits (the filename is already in the store) the
extraction model is never invoked for that image: no `llmCall` event appears
in its trace, the store is untouched, the informational "already analyzed"
notice is emitted, and nothing escapes the loop body. -/
theorem C4_existence_short_circuit
    (extract : List Nat → Except String (List (String × JVal)))
    (storeFault : String → Bool) (st : DBState) (img : ImageFile)
    (htab : st.tableExists = true)
    (hex : st.rows.any (fun r => r.image_name == img.name) = true) :
    (processOne extract storeFault st img).trace.all
      (fun e => !isLLMCall e) = true ∧
    (processOne extract storeFault st img).st = st ∧
    Ev.infoNote ("Bild \x27" ++ img.name ++
        "\x27 wurde bereits analysiert und befindet sich in der Datenbank.")
      ∈ (processOne extract storeFault st img).trace ∧
    (processOne extract storeFault st img).exn = none := by
  simp [processOne, image_exists_in_db, htab, hex, isLLMCall]

/-- Witness for `C4_existence_short_circuit` at a store already holding
`a.jpg`. -/
theorem C4_witness :
    (processOne (fun _ => .ok [("title", JVal.jstr "X")]) (fun _ => false)
      dbA ⟨"a.jpg", [1, 2]⟩).trace.all (fun e => !isLLMCall e) = true ∧
    (processOne (fun _ => .ok [("title", JVal.jstr "X")]) (fun _ => false)
      dbA ⟨"a.jpg", [1, 2]⟩).st = dbA ∧
    Ev.infoNote ("Bild \x27a.jpg\x27 wurde bereits analysiert und befindet sich in der Datenbank.")
      ∈ (processOne (fun _ => .ok [("title", JVal.jstr "X")]) (fun _ => false)
          dbA ⟨"a.jpg", [1, 2]⟩).trace ∧
    (processOne (fun _ => .ok [("title", JVal.jstr "X")]) (fun _ => false)
      dbA ⟨"a.jpg", [1, 2]⟩).exn = none :=
  C4_existence_short_circuit (fun _ => .ok [("title", JVal.jstr "X")])
    (fun _ => false) dbA ⟨"a.jpg", [1, 2]⟩ (by decide) (by decide)

theorem processOne_st_tableExists
    (extract : List Nat → Except String (List (String × JVal)))
    (storeFault : String → Bool) (st : DBState) (img : ImageFile) :
    (processOne extract storeFault st img).st.tableExists
      = st.tableExists := by
  cases htab : st.tableExists with
  | false => simp [processOne, image_exists_in_db, htab]
  | true =>
    cases hany : st.rows.any (fun r => r.image_name == img.name) with
    | true => simp [processOne, image_exists_in_db, htab, hany]
    | false =>
      cases hx : extract img.bytes with
      | error e => simp [processOne, image_exists_in_db, htab, hany, hx]
      | ok data =>
        simp [processOne, image_exists_in_db, htab, hany, hx,
          insert_st_tableExists]

theorem processOne_extract_error
    (extract : List Nat → Except String (List (String × JVal)))
    (storeFault : String → Bool) (st : DBState) (img : ImageFile)
    (e : String) (hx : extract img.bytes = .error e)
    (htab : st.tableExists = true) :
    (processOne extract storeFault st img).st = st ∧
    (processOne extract storeFault st img).exn = none := by
  cases hany : st.rows.any (fun r => r.image_name == img.name) <;>
    simp [processOne, image_exists_in_db, htab, hany, hx]

theorem processBatch_splice
    (extract : List Nat → Except String (List (String × JVal)))
    (storeFault : String → Bool) (bad : ImageFile) (e : String)
    (hx : extract bad.bytes = .error e) :
    ∀ (xs : List ImageFile) (st : DBState) (ys : List ImageFile),
      st.tableExists = true →
      (processBatch extract storeFault st (xs ++ bad :: ys)).st
        = (processBatch extract storeFault st (xs ++ ys)).st ∧
      (processBatch extract storeFault st (xs ++ bad :: ys)).exn
        = (processBatch extract storeFault st (xs ++ ys)).exn := by
  intro xs
  induction xs with
  | nil =>
    intro st ys htab
    have h := processOne_extract_error extract storeFault st bad e hx htab
    simp [processBatch, h.1, h.2]
  | cons x xs ih =>
    intro st ys htab
    simp only [List.cons_append, processBatch]
    cases ho : (processOne extract storeFault st x).exn with
    | some err => simp [ho]
    | none =>
      have htab2 : (processOne extract storeFault st x).st.tableExists
          = true := by
        rw [processOne_st_tableExists]
        exact htab
      have h := ih ((processOne extract storeFault st x).st) ys htab2
      simp [ho, h.1, h.2]

/-- The extraction oracle of the spec's batch-isolation scenario: fails on
the bytes `[2]` of the second image, succeeds for everything else. -/
def extractBoom : List Nat → Except String (List (String × JVal)) :=
  fun bs => if bs = [2] then .error "boom" else .ok [("title", .jstr "T")]

/-- C5: a per-image extraction or persistence failure is caught at the
Controller boundary and never escapes or aborts the batch: the final store
state of a batch containing a failing image equals that of the batch without
it (every other image is still processed and persisted), the failing image
gets a user-visible error notice naming it and writes no row, and a faulting
insert returns `False` with an error notice naming the image and an
unchanged store. The spec's 3-image scenario persists exactly images 1 and
3. -/
theorem C5_batch_isolation
    (extract : List Nat → Except String (List (String × JVal)))
    (storeFault : String → Bool) (bad : ImageFile) (e : String)
    (hx : extract bad.bytes = .error e) :
    (∀ (xs : List ImageFile) (st : DBState) (ys : List ImageFile),
      st.tableExists = true →
      (processBatch extract storeFault st (xs ++ bad :: ys)).st
        = (processBatch extract storeFault st (xs ++ ys)).st ∧
      (processBatch extract storeFault st (xs ++ bad :: ys)).exn
        = (processBatch extract storeFault st (xs ++ ys)).exn) ∧
    (∀ st : DBState, st.tableExists = true →
      (processOne extract storeFault st bad).st = st ∧
      (processOne extract storeFault st bad).exn = none) ∧
    (∀ st : DBState, st.tableExists = true →
      st.rows.any (fun r => r.image_name == bad.name) = false →
      Ev.errNote ("Fehler bei der Analyse von \x27" ++ bad.name ++
          "\x27: " ++ e)
        ∈ (processOne extract storeFault st bad).trace) ∧
    (∀ (st : DBState) (name : String) (t b d : JVal),
      (insert_image_data st name t b d true).inserted = false ∧
      (insert_image_data st name t b d true).st = st ∧
      ∃ m, (insert_image_data st name t b d true).trace
        = [.connOpen,
           .errNote ("Fehler beim Einfügen von \x27" ++ name ++
             "\x27 in die Datenbank: " ++ m),
           .connClose]) ∧
    (processBatch extractBoom (fun _ => false) initSt
      [⟨"a", [1]⟩, ⟨"b", [2]⟩, ⟨"c", [3]⟩]).st.rows.map Row.image_name
      = ["a", "c"] := by
  refine ⟨processBatch_splice extract storeFault bad e hx, ?_, ?_, ?_,
    by decide⟩
  · intro st htab
    exact processOne_extract_error extract storeFault st bad e hx htab
  · intro st htab hany
    simp [processOne, image_exists_in_db, htab, hany, hx]
  · intro st name t b d
    unfold insert_image_data
    split_ifs with h1 h2
    · refine ⟨rfl, rfl, "InterfaceError", ?_⟩
      simp [String.append_assoc]
    · refine ⟨rfl, rfl, "OperationalError", ?_⟩
      simp [String.append_assoc]
    · exfalso
      apply h2
      simp
    · exfalso
      apply h2
      simp

/-- Witness for `C5_batch_isolation` at the 3-image scenario with the
`extractBoom` oracle. -/
theorem C5_witness :
    (processBatch extractBoom (fun _ => false) initSt
      ([⟨"a", [1]⟩] ++ (⟨"b", [2]⟩ : ImageFile) :: [⟨"c", [3]⟩])).st
      = (processBatch extractBoom (fun _ => false) initSt
          ([⟨"a", [1]⟩] ++ [⟨"c", [3]⟩])).st ∧
    Ev.errNote ("Fehler bei der Analyse von \x27b\x27: boom")
      ∈ (processOne extractBoom (fun _ => false) initSt ⟨"b", [2]⟩).trace := by
  have h := C5_batch_isolation extractBoom (fun _ => false) ⟨"b", [2]⟩
    "boom" rfl
  exact ⟨(h.1 [⟨"a", [1]⟩] initSt [⟨"c", [3]⟩] rfl).1,
    h.2.2.1 initSt rfl rfl⟩

/-- C6 fails as stated: `image_exists_in_db` on a faulting engine opens a
connection and exits (by the propagating exception) without closing it —
there is no try/finally around its execute. -/
theorem C6_counterexample :
    ¬ connBalanced (image_exists_in_db initSt "a.jpg" true).2 := by
  decide

/-- C6 as amended: `insert_image_data` releases its connection on every exit
path, including every error path (its close sits in a `finally`); but
`setup_database` and `image_exists_in_db` release theirs only on the normal
path — when their execute raises, the exception propagates and the
connection they opened is never closed. -/
theorem C6_connection_release :
    (∀ (st : DBState) (n : String) (t b d : JVal) (f : Bool),
      connBalanced (insert_image_data st n t b d f).trace) ∧
    (∀ st : DBState, connBalanced (setup_database st false).2) ∧
    (∀ (st : DBState) (n : String), st.tableExists = true →
      connBalanced (image_exists_in_db st n false).2) ∧
    (∀ st : DBState, (setup_database st true).2 = [Ev.connOpen] ∧
      (setup_database st true).1 = .error "sqlite3.OperationalError") ∧
    (∀ (st : DBState) (n : String) (f : Bool),
      (f || !st.tableExists) = true →
      (image_exists_in_db st n f).2 = [Ev.connOpen] ∧
      (image_exists_in_db st n f).1
        = .error "sqlite3.OperationalError") := by
  refine ⟨?_, ?_, ?_, ?_, ?_⟩
  · intro st n t b d f
    unfold insert_image_data
    split_ifs <;> simp [connBalanced]
  · intro st
    unfold setup_database
    split_ifs <;> simp_all [connBalanced]
  · intro st n htab
    simp [image_exists_in_db, htab, connBalanced]
  · intro st
    simp [setup_database]
  · intro st n f hf
    simp [image_exists_in_db, hf]

/-- Witness for `C6_connection_release`: concrete balanced runs of all three
operations and a concrete leaking faulty run of `image_exists_in_db`. -/
theorem C6_witness :
    connBalanced (insert_image_data dbA "a.jpg" (.jstr "t") .jnull .jnull
      true).trace ∧
    connBalanced (setup_database initSt false).2 ∧
    connBalanced (image_exists_in_db initSt "a.jpg" false).2 ∧
    (image_exists_in_db initSt "a.jpg" true).2 = [Ev.connOpen] := by
  have h := C6_connection_release
  exact ⟨h.1 dbA "a.jpg" (.jstr "t") .jnull .jnull true,
    h.2.1 initSt, h.2.2.1 initSt "a.jpg" rfl,
    (h.2.2.2.2 initSt "a.jpg" true rfl).1⟩

/-- An uninitialized store: no table yet on disk. -/
def noTableSt : DBState :=
  { tableExists := false, schema := [], rows := [], seq := 0, clock := 0 }

/-- C7: `setup_database` is idempotent — on a store whose table already
exists it is an exact no-op (same state back, rows untouched, a normal `ok`
return, so no duplicate-table error); on a store without the table it
creates it empty with the DDL schema of §3: auto-increment integer primary
key `id`, unique non-null `image_name`, non-null `title`, nullable
`buildings` and `description`, and `time_added` defaulted by the store. -/
theorem C7_initialize_idempotent (st : DBState) :
    (st.tableExists = true →
      setup_database st false = (.ok st, [.connOpen, .connClose])) ∧
    (st.tableExists = false →
      setup_database st false =
        (.ok { tableExists := true, schema := image_data_schema,
               rows := [], seq := 0, clock := st.clock },
         [.connOpen, .connClose])) ∧
    image_data_schema.map ColumnSpec.colName
      = ["id", "image_name", "title", "buildings", "description",
         "time_added"] ∧
    (image_data_schema.filter (fun c => c.pkAutoinc)).map ColumnSpec.colName
      = ["id"] ∧
    (image_data_schema.filter (fun c => c.unique)).map ColumnSpec.colName
      = ["image_name"] ∧
    (image_data_schema.filter (fun c => c.notNull)).map ColumnSpec.colName
      = ["image_name", "title"] ∧
    (image_data_schema.filter (fun c => c.dflt.isSome)).map
      ColumnSpec.colName = ["time_added"] := by
  refine ⟨?_, ?_, by decide, by decide, by decide, by decide, by decide⟩
  · intro h
    simp [setup_database, h]
  · intro h
    simp [setup_database, h]

/-- Witness for `C7_initialize_idempotent`: a no-op re-initialization of a
populated store and a fresh initialization of an uninitialized one. -/
theorem C7_witness :
    setup_database dbA false = (.ok dbA, [.connOpen, .connClose]) ∧
    setup_database noTableSt false =
      (.ok { tableExists := true, schema := image_data_schema,
             rows := [], seq := 0, clock := noTableSt.clock },
       [.connOpen, .connClose]) := by
  exact ⟨(C7_initialize_idempotent dbA).1 rfl,
    (C7_initialize_idempotent noTableSt).2.1 rfl⟩

/-- The store after a second successful insert (`b.jpg` after `a.jpg`). -/
def dbB : DBState :=
  (insert_image_data dbA "b.jpg" (.jstr "t") .jnull .jnull false).st

/-- C9: the `id` column is store-assigned and strictly monotonically
increasing: every successful insert appends a row whose id is the successor
of the AUTOINCREMENT counter, strictly greater than every existing id and
never equal to a previously assigned one; two successful inserts into an
empty store get ids 1 then 2 in insertion order. -/
theorem C9_ids_monotonic (st : DBState) (n : String) (t b d : JVal)
    (f : Bool) (hwf : WF st)
    (hins : (insert_image_data st n t b d f).inserted = true) :
    (∃ row : Row,
      (insert_image_data st n t b d f).st.rows = st.rows ++ [row] ∧
      row.id = st.seq + 1 ∧
      (∀ r ∈ st.rows, r.id < row.id) ∧
      row.id ∉ st.rows.map Row.id ∧
      (insert_image_data st n t b d f).st.seq = st.seq + 1 ∧
      WF (insert_image_data st n t b d f).st) ∧
    (insert_image_data initSt "a.jpg" (.jstr "t") .jnull .jnull
      false).st.rows.map Row.id = [1] ∧
    dbB.rows.map Row.id = [1, 2] := by
  refine ⟨?_, by decide, by decide⟩
  unfold insert_image_data at hins ⊢
  split_ifs at hins ⊢ with h1 h2 h3
  have hlt : ∀ r ∈ st.rows, r.id < st.seq + 1 := by
    intro r hr
    exact Nat.lt_succ_of_le (hwf.1 r hr)
  have hnm : st.seq + 1 ∉ st.rows.map Row.id := by
    intro hm
    obtain ⟨r, hr, hid⟩ := List.mem_map.mp hm
    have := hwf.1 r hr
    omega
  refine ⟨{ id := st.seq + 1, image_name := n, title := toStored t,
            buildings := toStored b, description := toStored d,
            time_added := st.clock },
    rfl, rfl, hlt, hnm, rfl, ?_, ?_⟩
  · intro r hr
    rw [List.mem_append] at hr
    rcases hr with hr | hr
    · exact Nat.le_succ_of_le (hwf.1 r hr)
    · rw [List.mem_singleton] at hr
      subst hr
      exact Nat.le_refl _
  · rw [List.map_append]
    refine List.Nodup.append hwf.2 (List.nodup_singleton _) ?_
    intro a ha hb
    simp at hb
    rw [List.mem_map] at ha
    obtain ⟨r2, hr2, hid2⟩ := ha
    have := hwf.1 r2 hr2
    omega

/-- Witness for `C9_ids_monotonic`: the second insert into the store holding
only `a.jpg` (id 1) appends `b.jpg` with id 2. -/
theorem C9_witness :
    (∃ row : Row,
      (insert_image_data dbA "b.jpg" (.jstr "t") .jnull .jnull
        false).st.rows = dbA.rows ++ [row] ∧
      row.id = dbA.seq + 1 ∧
      (∀ r ∈ dbA.rows, r.id < row.id) ∧
      row.id ∉ dbA.rows.map Row.id ∧
      (insert_image_data dbA "b.jpg" (.jstr "t") .jnull .jnull
        false).st.seq = dbA.seq + 1 ∧
      WF (insert_image_data dbA "b.jpg" (.jstr "t") .jnull .jnull
        false).st) ∧
    (insert_image_data initSt "a.jpg" (.jstr "t") .jnull .jnull
      false).st.rows.map Row.id = [1] ∧
    dbB.rows.map Row.id = [1, 2] :=
  C9_ids_monotonic dbA "b.jpg" (.jstr "t") .jnull .jnull false
    (by decide) (by decide)

/-- An 8-byte PNG file signature: a concrete image whose MIME type is
`image/png`, not `image/jpeg`. -/
def pngBytes : List Nat := [137, 80, 78, 71, 13, 10, 26, 10]

theorem insert_trace_no_llmCall (st : DBState) (n : String) (t b d : JVal)
    (f : Bool) :
    (insert_image_data st n t b d f).trace.countP isLLMCall = 0 := by
  unfold insert_image_data
  split_ifs <;> simp [isLLMCall]

/-- C8 fails as stated: for a PNG upload the data URL in the outbound
request is tagged `image/jpeg` (the literal in the f-string on line 131),
not the image's own MIME type `image/png`. -/
theorem C8_counterexample :
    specMimeOfBytes pngBytes = "image/png" ∧
    requestMimeTag (buildRequest pngBytes) = "image/jpeg" ∧
    requestMimeTag (buildRequest pngBytes) ≠ specMimeOfBytes pngBytes := by
  decide

/-- C8 as amended: for every uploaded image not already in the store,
exactly one outbound request is constructed, holding the fixed system
instruction, one human turn with the fixed short text prompt and the image
bytes base64-encoded in a data URL — tagged with the fixed MIME type
`image/jpeg` regardless of the image's actual type; instruction and prompt
do not vary with the image content. -/
theorem C8_request_construction (image_bytes : List Nat)
    (extract : List Nat → Except String (List (String × JVal)))
    (storeFault : String → Bool) (st : DBState) (img : ImageFile)
    (htab : st.tableExists = true)
    (hnew : st.rows.any (fun r => r.image_name == img.name) = false) :
    buildRequest image_bytes =
      { systemMsg := systemInstruction, humanText := humanPromptText,
        humanImageUrl :=
          "data:image/jpeg;base64," ++ encode_image_from_bytes image_bytes } ∧
    (processOne extract storeFault st img).trace.countP isLLMCall = 1 := by
  refine ⟨rfl, ?_⟩
  cases hx : extract img.bytes with
  | error e =>
    simp [processOne, image_exists_in_db, htab, hnew, hx, isLLMCall]
  | ok data =>
    simp [processOne, image_exists_in_db, htab, hnew, hx, isLLMCall,
      insert_trace_no_llmCall]

/-- Witness for `C8_request_construction` at a fresh store and the PNG
image. -/
theorem C8_witness :
    buildRequest pngBytes =
      { systemMsg := systemInstruction, humanText := humanPromptText,
        humanImageUrl := "data:image/jpeg;base64," ++
          encode_image_from_bytes pngBytes } ∧
    (processOne (fun _ => .ok [("title", JVal.jstr "X")]) (fun _ => false)
      initSt ⟨"x.png", pngBytes⟩).trace.countP isLLMCall = 1 :=
  C8_request_construction pngBytes (fun _ => .ok [("title", JVal.jstr "X")])
    (fun _ => false) initSt ⟨"x.png", pngBytes⟩ rfl rfl

/-- C10: the list-flattening coercion is applied only to `buildings` and
`description`, never to `title`: a list-valued `title` is passed to the
store unflattened, where binding it raises, caught by the generic branch —
an error notice naming the image, return `False`, and no row written. -/
theorem C10_title_not_coerced (d : List (String × JVal)) (l : List JVal)
    (st : DBState) (name : String) (fault : Bool)
    (h : d.lookup "title" = some (.jarr l)) :
    title_to_insert d = .jarr l ∧
    (insert_image_data st name (title_to_insert d) (buildings_to_insert d)
      (description_to_insert d) fault).inserted = false ∧
    (insert_image_data st name (title_to_insert d) (buildings_to_insert d)
      (description_to_insert d) fault).st = st ∧
    (insert_image_data st name (title_to_insert d) (buildings_to_insert d)
      (description_to_insert d) fault).trace =
      [.connOpen,
       .errNote ("Fehler beim Einfügen von \x27" ++ name ++
         "\x27 in die Datenbank: InterfaceError"),
       .connClose] := by
  have ht : title_to_insert d = .jarr l := by
    simp [title_to_insert, dictGet, h]
  refine ⟨ht, ?_, ?_, ?_⟩ <;>
    rw [ht] <;> simp [insert_image_data, bindable]

/-- Witness for `C10_title_not_coerced` at a response whose title is the
list `["T1","T2"]`. -/
theorem C10_witness :
    title_to_insert [("title", JVal.jarr [.jstr "T1", .jstr "T2"])]
      = .jarr [.jstr "T1", .jstr "T2"] ∧
    (insert_image_data initSt "a.jpg"
      (title_to_insert [("title", JVal.jarr [.jstr "T1", .jstr "T2"])])
      (buildings_to_insert [("title", JVal.jarr [.jstr "T1", .jstr "T2"])])
      (description_to_insert [("title", JVal.jarr [.jstr "T1", .jstr "T2"])])
      false).inserted = false ∧
    (insert_image_data initSt "a.jpg"
      (title_to_insert [("title", JVal.jarr [.jstr "T1", .jstr "T2"])])
      (buildings_to_insert [("title", JVal.jarr [.jstr "T1", .jstr "T2"])])
      (description_to_insert [("title", JVal.jarr [.jstr "T1", .jstr "T2"])])
      false).st = initSt :=
  have h := C10_title_not_coerced
    [("title", JVal.jarr [.jstr "T1", .jstr "T2"])]
    [.jstr "T1", .jstr "T2"] initSt "a.jpg" false rfl
  ⟨h.1, h.2.1, h.2.2.1⟩

end App
